import Mathlib

/-!
Verification development for the biopac_project example scripts.

The scripts are thin clients of an external `biopacndt` library.  The one
piece of original logic is `AutoThreshold.dataHandler` in
`autothreshold.py`, a sliding-window maximum detector over a live sample
stream; the remaining scripts are straight-line orchestration whose
observable behaviour we model as traces of effects.

Sample amplitudes (Python floats) are modelled as rationals: every claim
about the handler concerns comparisons and list bookkeeping, not rounding.
Fallible list accesses (`frame[i]`, `list.pop(0)`) are modelled with
`Option`: a `none` result is a Python `IndexError`.
-/

/-- A channel structure as consumed by the scripts: only the `Type` and
`Index` fields are read (`self.__channel.Type`, `self.__channel.Index`). -/
structure AcqNdtChannel where
  «Type» : String
  Index : Nat
deriving DecidableEq

/-- Control requests the `AutoThreshold` callback can issue on the
XML-RPC server. -/
inductive ServerCall where
  | toggleAcquisition
deriving DecidableEq

/-- State of an `AutoThreshold` object (`autothreshold.py`, class
`AutoThreshold`): monitored channel, window size, sample queue, the
maximum of the previous window, the 1-volt threshold, and the stop flag. -/
structure AutoThreshold where
  channel : AcqNdtChannel
  queueSize : Nat
  queue : List ℚ
  oldMaxValue : ℚ
  maxThreshold : ℚ
  stopProcessing : Bool
deriving DecidableEq

/-- `AutoThreshold.__init__`: empty queue, `oldMaxValue = 0`,
`maxThreshold = 1`, `stopProcessing = False`. -/
def AutoThreshold.init (channel : AcqNdtChannel) (size : Nat) : AutoThreshold :=
  { channel := channel
    queueSize := size
    queue := []
    oldMaxValue := 0
    maxThreshold := 1
    stopProcessing := false }

/-- The frame-position search loop of `dataHandler`
(`frameIndex = 0; for ch in channelsInSlice: if ... : frameIndex += 1 else: break`).
Note the loop advances only while the channel in the slice differs from the
monitored one in BOTH its `Type` and its `Index` fields. -/
def frameIndexOf (c : AcqNdtChannel) : List AcqNdtChannel → Nat
  | [] => 0
  | ch :: rest =>
      if c.«Type» ≠ ch.«Type» ∧ c.Index ≠ ch.Index then
        frameIndexOf c rest + 1
      else 0

/-- The maximum scan of `dataHandler`
(`for d in self.__queue: if d > maxValue: maxValue = d`), starting from an
accumulator `m`. -/
def scanMax (m : ℚ) : List ℚ → ℚ
  | [] => m
  | d :: ds => scanMax (if d > m then d else m) ds

/-- `maxValue = self.__queue[0]` followed by the scan over the whole queue.
On the empty list (never reached by the code) it returns 0. -/
def windowMax : List ℚ → ℚ
  | [] => 0
  | d :: ds => scanMax d (d :: ds)

/-- The sample `dataHandler` extracts for this call, when it reaches the
queue-handling code: `none` when the handler returns early because the stop
flag is set or because the frame-position search ran to `len(frame)`, and
also `none` when `frame[frameIndex]` itself would raise. -/
def AutoThreshold.processedSample (a : AutoThreshold) (frame : List ℚ)
    (channelsInSlice : List AcqNdtChannel) : Option ℚ :=
  if a.stopProcessing then none
  else
    let frameIndex := frameIndexOf a.channel channelsInSlice
    if frameIndex = frame.length then none
    else frame[frameIndex]?

/-- `AutoThreshold.dataHandler` (`autothreshold.py`).  The call
`self.__acqServer.getAcquisitionInProgress()` is modelled by the boolean
input `acqInProgress`; the effect `self.__acqServer.toggleAcquisition()`
is recorded in the returned call list.  `none` models a Python
`IndexError` (out-of-range `frame[frameIndex]` access, or `pop(0)` on an
empty queue). -/
def AutoThreshold.dataHandler (a : AutoThreshold) (frame : List ℚ)
    (channelsInSlice : List AcqNdtChannel) (acqInProgress : Bool) :
    Option (AutoThreshold × List ServerCall) :=
  if a.stopProcessing then some (a, [])
  else
    let frameIndex := frameIndexOf a.channel channelsInSlice
    if frameIndex = frame.length then some (a, [])
    else
      match frame[frameIndex]? with
      | none => none
      | some sample =>
        let a1 := if a.queue.length = 0 then { a with oldMaxValue := sample } else a
        if a1.queue.length < a1.queueSize then
          let a2 := { a1 with queue := a1.queue ++ [sample] }
          let a3 := if sample > a2.oldMaxValue then { a2 with oldMaxValue := sample } else a2
          some (a3, [])
        else
          match a1.queue with
          | [] => none
          | _ :: qt =>
            let q := qt ++ [sample]
            let maxValue := windowMax q
            let voltChange := maxValue - a1.oldMaxValue
            if voltChange > a1.maxThreshold ∧ acqInProgress = true then
              some ({ a1 with queue := q, stopProcessing := true },
                    [ServerCall.toggleAcquisition])
            else
              some ({ a1 with queue := q, oldMaxValue := maxValue }, [])

/-- One invocation of the callback: the data frame, the channel slice, and
the server's answer to `getAcquisitionInProgress()`. -/
structure HandlerInput where
  frame : List ℚ
  channelsInSlice : List AcqNdtChannel
  acqInProgress : Bool

/-- Run `dataHandler` over a sequence of invocations, accumulating the
server calls issued.  `none` if any call raises. -/
def runHandler (a : AutoThreshold) : List HandlerInput → Option (AutoThreshold × List ServerCall)
  | [] => some (a, [])
  | inp :: rest =>
    match a.dataHandler inp.frame inp.channelsInSlice inp.acqInProgress with
    | none => none
    | some (a1, calls) =>
      match runHandler a1 rest with
      | none => none
      | some (a2, calls2) => some (a2, calls ++ calls2)

/-!
Trace model of the scripts.  Each script's `main` is a straight-line
procedure over the external `biopacndt` library; we record its observable
effects (console prints, `sys.exit`, server control calls, data-server and
recorder lifecycle operations) as a list of events, as a function of the
environment's answers to the library calls it makes.
-/

/-- Observable effects of a script run. -/
inductive Event where
  | print (s : String)
  | exitCall
  | toggleAcquisition
  | loadTemplate (path : String)
  | changeDataConnectionMethod (m : String)
  | deliverAllEnabledChannels
  | deliverChannel
  | changeDataConnectionPort (chIdx port : Nat)
  | registerCallback (n : String)
  | dataServerStart (i : Nat)
  | dataServerStop (i : Nat)
  | recorderClose (i : Nat)
  | setOutputChannel (chan : AcqNdtChannel) (volts : ℚ)
  | threadStart
  | waitForAcquisitionEnd
  | sleepSeconds (n : Nat)
  | mainWindowLoop
deriving DecidableEq

/-- Environment answers to the library calls the scripts make:
whether `AcqNdtQuickConnect()` found a server, whether an acquisition is
already in progress, the current data connection method, the template
path built from the working directory, the first channel's label, whether
the acquisition is reported running after the starting toggle
(`simplesample.py`), the number of enabled channels (`multiconnect.py`),
and whether `os.name == 'nt'`. -/
structure Env where
  serverFound : Bool
  acqInProgress : Bool
  dataConnectionMethod : String
  templateName : String
  firstChannelLabel : String
  acqStartedAfterToggle : Bool
  channelCount : Nat
  windowsOS : Bool

/-- The discovery-failure branch shared by every script:
`print "No AcqKnowledge servers found!"` followed by `sys.exit()`. -/
def noServerTrace : List Event :=
  [Event.print "No AcqKnowledge servers found!", Event.exitCall]

/-- The events of `simplesample.py` `main` after a server was found. -/
def simplesampleBody (env : Env) : List Event :=
  (if env.acqInProgress then
    [Event.toggleAcquisition, Event.print "Current data acquistion stopped", Event.print ""]
   else [])
  ++ [Event.print ("Loading template " ++ env.templateName), Event.print "",
      Event.loadTemplate env.templateName,
      Event.print "First channel name:", Event.print env.firstChannelLabel, Event.print "",
      Event.toggleAcquisition, Event.sleepSeconds 1]
  ++ (if env.acqStartedAfterToggle then
       [Event.print "Acquisiton started successfully. Check AcqKnowledge to ensure an acquisition is in progress."]
      else
       [Event.print "ERROR:  the acquisition did not start!"])

/-- `simplesample.py` `main`. -/
def simplesampleMain (env : Env) : List Event :=
  if env.serverFound then simplesampleBody env else noServerTrace

/-- The events of `autothreshold.py` `main` after a server was found. -/
def autothresholdBody (env : Env) : List Event :=
  (if env.acqInProgress then
    [Event.toggleAcquisition, Event.print "Current data acquistion stopped"]
   else [])
  ++ [Event.print ("Loading template " ++ env.templateName),
      Event.loadTemplate env.templateName]
  ++ (if env.dataConnectionMethod ≠ "single" then
       [Event.changeDataConnectionMethod "single",
        Event.print "Data Connection Method Changed to: single"]
      else [])
  ++ [Event.deliverAllEnabledChannels,
      Event.registerCallback "AutoThreshold",
      Event.dataServerStart 0,
      Event.print "Setting analog output 0 to 0 Volts...",
      Event.setOutputChannel ⟨"analog", 0⟩ 0,
      Event.threadStart,
      Event.toggleAcquisition,
      Event.waitForAcquisitionEnd,
      Event.dataServerStop 0]

/-- `autothreshold.py` `main`. -/
def autothresholdMain (env : Env) : List Event :=
  if env.serverFound then autothresholdBody env else noServerTrace

/-- Per-channel setup events of the `multiconnect.py` channel loop:
the screen callback is only registered off Windows, then the recorder
callback is registered and the channel's data server started. -/
def multiconnectPerChannel (windowsOS : Bool) (i : Nat) : List Event :=
  (if windowsOS then [] else [Event.registerCallback "OutputToScreen"])
  ++ [Event.registerCallback "BinaryWriter", Event.dataServerStart i]

/-- The events of `multiconnect.py` `main` after a server was found, up to
and including the toggle that starts the acquisition. -/
def multiconnectSetup (env : Env) : List Event :=
  (if env.acqInProgress then
    [Event.toggleAcquisition, Event.print "Current data acquistion stopped"]
   else [])
  ++ [Event.print ("Loading template " ++ env.templateName),
      Event.loadTemplate env.templateName]
  ++ (if env.dataConnectionMethod ≠ "multiple" then
       [Event.changeDataConnectionMethod "multiple",
        Event.print "Data Connection Method Changed to: multiple"]
      else [])
  ++ [Event.deliverAllEnabledChannels]
  ++ (if 0 < env.channelCount then [Event.changeDataConnectionPort 0 50505] else [])
  ++ (List.range env.channelCount).flatMap (multiconnectPerChannel env.windowsOS)
  ++ [Event.toggleAcquisition]

/-- The events of `multiconnect.py` `main` after a server was found. -/
def multiconnectBody (env : Env) : List Event :=
  multiconnectSetup env
  ++ [Event.waitForAcquisitionEnd, Event.sleepSeconds 15]
  ++ (List.range env.channelCount).map Event.dataServerStop
  ++ (List.range env.channelCount).map Event.recorderClose

/-- `multiconnect.py` `main`. -/
def multiconnectMain (env : Env) : List Event :=
  if env.serverFound then multiconnectBody env else noServerTrace

/-- The events of `singleconnection.py` `main` after a server was found, up
to and including the toggle that starts the acquisition. -/
def singleconnectionSetup (env : Env) : List Event :=
  (if env.acqInProgress then
    [Event.toggleAcquisition, Event.print "Current data acquistion stopped"]
   else [])
  ++ [Event.print ("Loading template " ++ env.templateName),
      Event.loadTemplate env.templateName]
  ++ (if env.dataConnectionMethod ≠ "single" then
       [Event.changeDataConnectionMethod "single",
        Event.print "Data Connection Method Changed to: single"]
      else [])
  ++ [Event.deliverAllEnabledChannels,
      Event.registerCallback "OutputToScreen",
      Event.registerCallback "BinaryRecorder",
      Event.dataServerStart 0,
      Event.toggleAcquisition]

/-- The events of `singleconnection.py` `main` after a server was found. -/
def singleconnectionBody (env : Env) : List Event :=
  singleconnectionSetup env
  ++ [Event.waitForAcquisitionEnd,
      Event.sleepSeconds 15,
      Event.dataServerStop 0,
      Event.recorderClose 0]

/-- `singleconnection.py` `main`. -/
def singleconnectionMain (env : Env) : List Event :=
  if env.serverFound then singleconnectionBody env else noServerTrace

/-- The events of `plotchan.py` `main` after a server was found. -/
def plotchanBody (env : Env) : List Event :=
  (if env.acqInProgress then
    [Event.toggleAcquisition, Event.print "Current data acquistion stopped"]
   else [])
  ++ [Event.print ("Loading template " ++ env.templateName),
      Event.loadTemplate env.templateName]
  ++ (if env.dataConnectionMethod ≠ "single" then
       [Event.changeDataConnectionMethod "single",
        Event.print "Data Connection Method Changed to: single"]
      else [])
  ++ [Event.deliverChannel,
      Event.registerCallback "UpdatePlot",
      Event.dataServerStart 0,
      Event.mainWindowLoop,
      Event.dataServerStop 0]

/-- `plotchan.py` `main`. -/
def plotchanMain (env : Env) : List Event :=
  if env.serverFound then plotchanBody env else noServerTrace

/-- `ChangeAnalogOutputThread.run` (`autothreshold.py`): sleep 10 seconds,
print, then set the stored analog output channel to 5 volts. -/
def changeAnalogOutputThreadRun (chan : AcqNdtChannel) : List Event :=
  [Event.sleepSeconds 10,
   Event.print "Flipping output voltage to 5 Volts...",
   Event.setOutputChannel chan 5]

/-- Classifier for shutdown effects: stopping a data server or closing a
channel recorder. -/
def Event.shutdownEffect : Event → Bool
  | Event.dataServerStop _ => true
  | Event.recorderClose _ => true
  | _ => false

/-- Classifier for the events that delimit or belong to the shutdown
phase of a streaming script (or abort it): stopping a data server,
closing a recorder, sleeping, waiting for the acquisition end, or
exiting. -/
def Event.isShutdownBoundary : Event → Bool
  | Event.dataServerStop _ => true
  | Event.recorderClose _ => true
  | Event.sleepSeconds _ => true
  | Event.waitForAcquisitionEnd => true
  | Event.exitCall => true
  | _ => false

/-- Classifier for requests issued to the acquisition server or its
hardware (as opposed to local prints, sleeps and bookkeeping). -/
def Event.controlRequest : Event → Bool
  | Event.toggleAcquisition => true
  | Event.loadTemplate _ => true
  | Event.changeDataConnectionMethod _ => true
  | Event.deliverAllEnabledChannels => true
  | Event.deliverChannel => true
  | Event.changeDataConnectionPort _ _ => true
  | Event.setOutputChannel _ _ => true
  | _ => false

/-!
Helper lemmas.
-/

/-- The frame-position search never runs past the end of the slice. -/
lemma frameIndexOf_le (c : AcqNdtChannel) : ∀ l : List AcqNdtChannel, frameIndexOf c l ≤ l.length
  | [] => Nat.le_refl 0
  | ch :: rest => by
      unfold frameIndexOf
      split
      · exact Nat.succ_le_succ (frameIndexOf_le c rest)
      · exact Nat.zero_le _

/-- Appending one sample to the scanned list updates the running maximum by
one comparison. -/
lemma scanMax_append (s : ℚ) : ∀ (l : List ℚ) (m : ℚ),
    scanMax m (l ++ [s]) = if s > scanMax m l then s else scanMax m l
  | [], m => by simp [scanMax]
  | d :: ds, m => by
      simp only [List.cons_append, scanMax]
      exact scanMax_append s ds _

/-- The windowed maximum of a nonempty queue with one sample appended. -/
lemma windowMax_append (qh : ℚ) (qt : List ℚ) (s : ℚ) :
    windowMax ((qh :: qt) ++ [s]) = if s > windowMax (qh :: qt) then s else windowMax (qh :: qt) := by
  simp only [List.cons_append, windowMax]
  rw [← List.cons_append, scanMax_append]

/-- The windowed maximum of a single sample is that sample. -/
lemma windowMax_singleton (s : ℚ) : windowMax [s] = s := by
  simp [windowMax, scanMax]

/-- `dataHandler` with the stop flag already set: return immediately,
no state change, no server call. -/
lemma dataHandler_stopped (a : AutoThreshold) (frame : List ℚ)
    (slice : List AcqNdtChannel) (ip : Bool) (h : a.stopProcessing = true) :
    a.dataHandler frame slice ip = some (a, []) := by
  simp [AutoThreshold.dataHandler, h]

/-- `dataHandler` when the frame-position search runs to `len(frame)`:
return immediately, no state change, no server call. -/
lemma dataHandler_absent (a : AutoThreshold) (frame : List ℚ)
    (slice : List AcqNdtChannel) (ip : Bool) (h : a.stopProcessing = false)
    (hfi : frameIndexOf a.channel slice = frame.length) :
    a.dataHandler frame slice ip = some (a, []) := by
  simp [AutoThreshold.dataHandler, h, hfi]

/-- `dataHandler` when the frame access itself would raise. -/
lemma dataHandler_get_none (a : AutoThreshold) (frame : List ℚ)
    (slice : List AcqNdtChannel) (ip : Bool) (h : a.stopProcessing = false)
    (hfi : frameIndexOf a.channel slice ≠ frame.length)
    (hget : frame[frameIndexOf a.channel slice]? = none) :
    a.dataHandler frame slice ip = none := by
  simp [AutoThreshold.dataHandler, h, hfi, hget]

/-- `dataHandler` during the initial fill (queue shorter than the window):
append the sample and recompute the running maximum, no server call. -/
lemma dataHandler_fill (a : AutoThreshold) (frame : List ℚ)
    (slice : List AcqNdtChannel) (ip : Bool) (s : ℚ)
    (h : a.stopProcessing = false)
    (hfi : frameIndexOf a.channel slice ≠ frame.length)
    (hget : frame[frameIndexOf a.channel slice]? = some s)
    (hlen : a.queue.length < a.queueSize) :
    a.dataHandler frame slice ip =
      some ({ a with
              queue := a.queue ++ [s]
              oldMaxValue := (if a.queue.length = 0 then s
                              else if s > a.oldMaxValue then s else a.oldMaxValue) }, []) := by
  by_cases hq : a.queue.length = 0 <;>
    simp [AutoThreshold.dataHandler, h, hfi, hget, hq, hlen, lt_irrefl]
  · intro h0
    rw [h0] at hlen
    exact absurd hlen (Nat.not_lt_zero _)
  · split <;> simp [*]

/-- `dataHandler` on an already-full, nonempty queue: slide the window,
then halt iff the windowed maximum exceeds the previous one by more than
the threshold and the server reports an acquisition in progress. -/
lemma dataHandler_slide (a : AutoThreshold) (frame : List ℚ)
    (slice : List AcqNdtChannel) (ip : Bool) (s qh : ℚ) (qt : List ℚ)
    (h : a.stopProcessing = false)
    (hfi : frameIndexOf a.channel slice ≠ frame.length)
    (hget : frame[frameIndexOf a.channel slice]? = some s)
    (hqueue : a.queue = qh :: qt)
    (hlen : ¬ a.queue.length < a.queueSize) :
    a.dataHandler frame slice ip =
      if windowMax (qt ++ [s]) - a.oldMaxValue > a.maxThreshold ∧ ip = true then
        some ({ a with queue := qt ++ [s], stopProcessing := true },
              [ServerCall.toggleAcquisition])
      else
        some ({ a with queue := qt ++ [s], oldMaxValue := windowMax (qt ++ [s]) }, []) := by
  have hnot : ¬ (qh :: qt).length < a.queueSize := by
    rw [← hqueue]; exact hlen
  simp [AutoThreshold.dataHandler, h, hfi, hget, hqueue, hnot]
  intro hc
  exact absurd hc (by simpa using hnot)

/-- `dataHandler` popping from an empty queue (only possible with window
size 0) raises. -/
lemma dataHandler_pop_empty (a : AutoThreshold) (frame : List ℚ)
    (slice : List AcqNdtChannel) (ip : Bool) (s : ℚ)
    (h : a.stopProcessing = false)
    (hfi : frameIndexOf a.channel slice ≠ frame.length)
    (hget : frame[frameIndexOf a.channel slice]? = some s)
    (hqueue : a.queue = [])
    (hlen : ¬ a.queue.length < a.queueSize) :
    a.dataHandler frame slice ip = none := by
  simp [hqueue] at hlen
  simp [AutoThreshold.dataHandler, h, hfi, hget, hqueue, hlen]

/-- Characterization of `processedSample`: a sample is processed exactly
when the stop flag is unset, the search stops short of `len(frame)`, and
the frame access succeeds. -/
lemma processedSample_eq_some {a : AutoThreshold} {frame : List ℚ}
    {slice : List AcqNdtChannel} {s : ℚ} :
    a.processedSample frame slice = some s ↔
      a.stopProcessing = false ∧ frameIndexOf a.channel slice ≠ frame.length ∧
        frame[frameIndexOf a.channel slice]? = some s := by
  by_cases h1 : a.stopProcessing
  · simp [AutoThreshold.processedSample, h1]
  · by_cases h2 : frameIndexOf a.channel slice = frame.length
    · simp [AutoThreshold.processedSample, h1, h2]
    · simp [AutoThreshold.processedSample, h1, h2]

/-- One `dataHandler` step preserves the window size, keeps the queue
length bounded by the window size, and emits `toggleAcquisition` only
while flipping the stop flag from unset to set. -/
lemma dataHandler_step {a a' : AutoThreshold} {frame : List ℚ}
    {slice : List AcqNdtChannel} {ip : Bool} {calls : List ServerCall}
    (hcall : a.dataHandler frame slice ip = some (a', calls)) :
    a'.queueSize = a.queueSize ∧
      (a.queue.length ≤ a.queueSize → a'.queue.length ≤ a.queueSize) ∧
      calls.count ServerCall.toggleAcquisition +
          (if a'.stopProcessing = true then 0 else 1) ≤
        (if a.stopProcessing = true then 0 else 1) := by
  by_cases h1 : a.stopProcessing
  · rw [dataHandler_stopped _ _ _ _ h1] at hcall
    simp only [Option.some.injEq, Prod.mk.injEq] at hcall
    obtain ⟨rfl, rfl⟩ := hcall
    exact ⟨rfl, id, by simp⟩
  · have h1' : a.stopProcessing = false := by simpa using h1
    by_cases h2 : frameIndexOf a.channel slice = frame.length
    · rw [dataHandler_absent _ _ _ _ h1' h2] at hcall
      simp only [Option.some.injEq, Prod.mk.injEq] at hcall
      obtain ⟨rfl, rfl⟩ := hcall
      exact ⟨rfl, id, by simp⟩
    · cases hget : frame[frameIndexOf a.channel slice]? with
      | none =>
        rw [dataHandler_get_none _ _ _ _ h1' h2 hget] at hcall
        exact absurd hcall (by simp)
      | some s =>
        by_cases h3 : a.queue.length < a.queueSize
        · rw [dataHandler_fill _ _ _ _ _ h1' h2 hget h3] at hcall
          simp only [Option.some.injEq, Prod.mk.injEq] at hcall
          obtain ⟨rfl, rfl⟩ := hcall
          refine ⟨rfl, fun _ => ?_, ?_⟩
          · simp only [List.length_append, List.length_cons, List.length_nil]
            omega
          · simp [h1']
        · cases hq : a.queue with
          | nil =>
            rw [dataHandler_pop_empty _ _ _ _ _ h1' h2 hget hq h3] at hcall
            exact absurd hcall (by simp)
          | cons qh qt =>
            rw [dataHandler_slide _ _ _ _ _ _ _ h1' h2 hget hq h3] at hcall
            rw [hq] at h3
            split at hcall <;>
              simp only [Option.some.injEq, Prod.mk.injEq] at hcall <;>
              obtain ⟨rfl, rfl⟩ := hcall
            · refine ⟨rfl, fun hle => ?_, ?_⟩
              · simp only [List.length_append, List.length_cons, List.length_nil] at *
                omega
              · simp [h1']
            · refine ⟨rfl, fun hle => ?_, ?_⟩
              · simp only [List.length_append, List.length_cons, List.length_nil] at *
                omega
              · simp [h1']

/-- Over any successful run, the window size is preserved, the bound on
the queue length is maintained, and the number of `toggleAcquisition`
requests is bounded by the stop-flag potential. -/
lemma runHandler_invariant {inputs : List HandlerInput} :
    ∀ {a a' : AutoThreshold} {calls : List ServerCall},
    runHandler a inputs = some (a', calls) →
    a'.queueSize = a.queueSize ∧
      (a.queue.length ≤ a.queueSize → a'.queue.length ≤ a.queueSize) ∧
      calls.count ServerCall.toggleAcquisition +
          (if a'.stopProcessing = true then 0 else 1) ≤
        (if a.stopProcessing = true then 0 else 1) := by
  induction inputs with
  | nil =>
    intro a a' calls h
    simp only [runHandler, Option.some.injEq, Prod.mk.injEq] at h
    obtain ⟨rfl, rfl⟩ := h
    exact ⟨rfl, id, by simp⟩
  | cons inp rest ih =>
    intro a a' calls h
    rw [runHandler] at h
    split at h
    · exact absurd h (by simp)
    next a1 calls1 hd =>
      split at h
      · exact absurd h (by simp)
      next a2 calls2 hr =>
        simp only [Option.some.injEq, Prod.mk.injEq] at h
        obtain ⟨rfl, rfl⟩ := h
        obtain ⟨hs1, hb1, hc1⟩ := dataHandler_step hd
        obtain ⟨hs2, hb2, hc2⟩ := ih hr
        refine ⟨by rw [hs2, hs1], fun hle => ?_, ?_⟩
        · have hb1' := hb1 hle
          have hb2' := hb2 (by omega)
          omega
        · rw [List.count_append]
          omega

/-!
Claim theorems.
-/

/-- C9: when the frames and channel lists have equal length and the
per-channel search runs to `len(frame)` (monitored channel absent from
this hardware sample), the handler returns with the state unchanged and
no server call. -/
theorem c9_channel_absent_is_noop
    (a : AutoThreshold) (frame : List ℚ) (slice : List AcqNdtChannel) (ip : Bool)
    (hstop : a.stopProcessing = false)
    (_hws : slice.length = frame.length)
    (hfi : frameIndexOf a.channel slice = frame.length) :
    a.dataHandler frame slice ip = some (a, []) :=
  dataHandler_absent a frame slice ip hstop hfi

/-- Witness for C9 at a concrete input: an analog channel monitored, a
slice holding only a different channel. -/
theorem c9_channel_absent_is_noop_witness :
    (AutoThreshold.init ⟨"analog", 0⟩ 3).stopProcessing = false ∧
    [AcqNdtChannel.mk "digital" 1].length = [(2 : ℚ)].length ∧
    frameIndexOf (AutoThreshold.init ⟨"analog", 0⟩ 3).channel [⟨"digital", 1⟩]
      = [(2 : ℚ)].length ∧
    (AutoThreshold.init ⟨"analog", 0⟩ 3).dataHandler [2] [⟨"digital", 1⟩] true
      = some (AutoThreshold.init ⟨"analog", 0⟩ 3, []) :=
  ⟨rfl, rfl, by decide,
   c9_channel_absent_is_noop _ _ _ _ rfl (by decide) (by decide)⟩

/-- C7: the background timer thread sleeps 10 seconds and then issues a
single control call, setting the stored analog output channel to 5 volts;
after that the thread performs no further actions. -/
theorem c7_timer_thread_one_control_call (chan : AcqNdtChannel) :
    changeAnalogOutputThreadRun chan =
      [Event.sleepSeconds 10,
       Event.print "Flipping output voltage to 5 Volts...",
       Event.setOutputChannel chan 5] ∧
    (changeAnalogOutputThreadRun chan).filter Event.controlRequest
      = [Event.setOutputChannel chan 5] :=
  ⟨rfl, rfl⟩

/-- C1 (amended): once the queue is full and no halt was requested, for a
call in which the monitored channel's sample is found, the handler
requests the halt (emits `toggleAcquisition` and sets its stop flag) if
and only if the new window's maximum strictly exceeds the previous
window's maximum by more than the 1-volt threshold AND the server reports
an acquisition in progress. -/
theorem c1_halt_iff_threshold_and_in_progress
    (a a' : AutoThreshold) (frame : List ℚ) (slice : List AcqNdtChannel)
    (ip : Bool) (qh s : ℚ) (qt : List ℚ) (calls : List ServerCall)
    (hstop : a.stopProcessing = false)
    (hqueue : a.queue = qh :: qt)
    (hfull : a.queue.length = a.queueSize)
    (hthr : a.maxThreshold = 1)
    (hfi : frameIndexOf a.channel slice ≠ frame.length)
    (hget : frame[frameIndexOf a.channel slice]? = some s)
    (hcall : a.dataHandler frame slice ip = some (a', calls)) :
    (calls = [ServerCall.toggleAcquisition] ∧ a'.stopProcessing = true) ↔
      (windowMax (qt ++ [s]) - a.oldMaxValue > 1 ∧ ip = true) := by
  have hlen : ¬ a.queue.length < a.queueSize := by omega
  rw [dataHandler_slide _ _ _ _ _ _ _ hstop hfi hget hqueue hlen, hthr] at hcall
  split at hcall <;>
    simp only [Option.some.injEq, Prod.mk.injEq] at hcall <;>
    obtain ⟨rfl, rfl⟩ := hcall
  next hc => simp [hc]
  next hc =>
    constructor
    · intro hcontra
      exact absurd hcontra.1 (by simp)
    · intro hrhs
      exact absurd hrhs hc

/-- Witness for the amended C1 at a concrete halting input. -/
theorem c1_halt_iff_witness :
    (AutoThreshold.mk ⟨"analog", 0⟩ 1 [0] 0 1 false).dataHandler [5] [⟨"analog", 0⟩] true
      = some (AutoThreshold.mk ⟨"analog", 0⟩ 1 [5] 0 1 true, [ServerCall.toggleAcquisition]) ∧
    (([ServerCall.toggleAcquisition] = [ServerCall.toggleAcquisition] ∧
        (AutoThreshold.mk ⟨"analog", 0⟩ 1 [5] 0 1 true).stopProcessing = true) ↔
      (windowMax ([] ++ [5]) - (AutoThreshold.mk ⟨"analog", 0⟩ 1 [0] 0 1 false).oldMaxValue > 1
        ∧ true = true)) :=
  ⟨by simp [AutoThreshold.dataHandler, frameIndexOf, windowMax, scanMax],
   c1_halt_iff_threshold_and_in_progress
     (AutoThreshold.mk ⟨"analog", 0⟩ 1 [0] 0 1 false)
     (AutoThreshold.mk ⟨"analog", 0⟩ 1 [5] 0 1 true)
     [5] [⟨"analog", 0⟩] true 0 5 [] [ServerCall.toggleAcquisition]
     rfl rfl rfl rfl (by decide) rfl
     (by simp [AutoThreshold.dataHandler, frameIndexOf, windowMax, scanMax])⟩

/-- Counterexample to C1 as stated: starting from a freshly constructed
window of size 1, fill it with sample 0, then deliver sample 5 while the
server reports NO acquisition in progress.  The new window's maximum
exceeds the old maximum by more than 1 volt, yet the handler issues no
`toggleAcquisition` and leaves the stop flag unset. -/
theorem c1_counterexample :
    (AutoThreshold.init ⟨"analog", 0⟩ 1).dataHandler [0] [⟨"analog", 0⟩] true
      = some (AutoThreshold.mk ⟨"analog", 0⟩ 1 [0] 0 1 false, []) ∧
    (AutoThreshold.mk ⟨"analog", 0⟩ 1 [0] 0 1 false).queue.length
      = (AutoThreshold.mk ⟨"analog", 0⟩ 1 [0] 0 1 false).queueSize ∧
    windowMax ([0].tail ++ [5]) - (AutoThreshold.mk ⟨"analog", 0⟩ 1 [0] 0 1 false).oldMaxValue
      > 1 ∧
    (AutoThreshold.mk ⟨"analog", 0⟩ 1 [0] 0 1 false).dataHandler [5] [⟨"analog", 0⟩] false
      = some (AutoThreshold.mk ⟨"analog", 0⟩ 1 [5] 5 1 false, []) := by
  refine ⟨?_, rfl, ?_, ?_⟩
  · simp [AutoThreshold.init, AutoThreshold.dataHandler, frameIndexOf, windowMax, scanMax]
  · simp [windowMax, scanMax]
  · simp [AutoThreshold.dataHandler, frameIndexOf, windowMax, scanMax]

/-- C3: once the window is full, the handler slides the queue (oldest
sample out, new sample in); a halt decision compares the previous stored
maximum against the maximum of the slid queue, and when no halt is
triggered the stored maximum is updated to that new windowed maximum. -/
theorem c3_full_window_compare_and_update
    (a a' : AutoThreshold) (frame : List ℚ) (slice : List AcqNdtChannel)
    (ip : Bool) (qh s : ℚ) (qt : List ℚ) (calls : List ServerCall)
    (hstop : a.stopProcessing = false)
    (hqueue : a.queue = qh :: qt)
    (hfull : a.queue.length = a.queueSize)
    (hfi : frameIndexOf a.channel slice ≠ frame.length)
    (hget : frame[frameIndexOf a.channel slice]? = some s)
    (hcall : a.dataHandler frame slice ip = some (a', calls)) :
    a'.queue = qt ++ [s] ∧
    (a'.stopProcessing = true → windowMax (qt ++ [s]) - a.oldMaxValue > a.maxThreshold) ∧
    (a'.stopProcessing = false → calls = [] ∧ a'.oldMaxValue = windowMax (qt ++ [s])) := by
  have hlen : ¬ a.queue.length < a.queueSize := by omega
  rw [dataHandler_slide _ _ _ _ _ _ _ hstop hfi hget hqueue hlen] at hcall
  split at hcall <;>
    simp only [Option.some.injEq, Prod.mk.injEq] at hcall <;>
    obtain ⟨rfl, rfl⟩ := hcall
  next hc =>
    exact ⟨rfl, fun _ => hc.1, fun hfalse => absurd hfalse (by simp)⟩
  next hc =>
    refine ⟨rfl, fun htrue => ?_, fun _ => ⟨rfl, rfl⟩⟩
    have hcontra : a.stopProcessing = true := htrue
    rw [hstop] at hcontra
    exact absurd hcontra (by simp)

/-- Witness for C3 at a concrete non-halting input. -/
theorem c3_full_window_witness :
    (AutoThreshold.mk ⟨"analog", 0⟩ 1 [0] 0 1 false).dataHandler [1] [⟨"analog", 0⟩] true
      = some (AutoThreshold.mk ⟨"analog", 0⟩ 1 [1] 1 1 false, []) ∧
    ((AutoThreshold.mk ⟨"analog", 0⟩ 1 [1] 1 1 false).queue = [] ++ [1] ∧
     ((AutoThreshold.mk ⟨"analog", 0⟩ 1 [1] 1 1 false).stopProcessing = true →
        windowMax ([] ++ [1]) - (AutoThreshold.mk ⟨"analog", 0⟩ 1 [0] 0 1 false).oldMaxValue
          > (AutoThreshold.mk ⟨"analog", 0⟩ 1 [0] 0 1 false).maxThreshold) ∧
     ((AutoThreshold.mk ⟨"analog", 0⟩ 1 [1] 1 1 false).stopProcessing = false →
        [] = ([] : List ServerCall) ∧
        (AutoThreshold.mk ⟨"analog", 0⟩ 1 [1] 1 1 false).oldMaxValue = windowMax ([] ++ [1]))) :=
  ⟨by simp [AutoThreshold.dataHandler, frameIndexOf, windowMax, scanMax],
   c3_full_window_compare_and_update
     (AutoThreshold.mk ⟨"analog", 0⟩ 1 [0] 0 1 false)
     (AutoThreshold.mk ⟨"analog", 0⟩ 1 [1] 1 1 false)
     [1] [⟨"analog", 0⟩] true 0 1 [] []
     rfl rfl rfl (by decide) rfl
     (by simp [AutoThreshold.dataHandler, frameIndexOf, windowMax, scanMax])⟩

/-- C4: during the initial fill (queue shorter than the window), a call
that processes a sample appends it to the queue, keeps the stored maximum
equal to the maximum of all samples gathered so far (the queue contents,
initialized from the first sample), and requests no halt. -/
theorem c4_initial_fill
    (a a' : AutoThreshold) (frame : List ℚ) (slice : List AcqNdtChannel)
    (ip : Bool) (s : ℚ) (calls : List ServerCall)
    (hfill : a.queue.length < a.queueSize)
    (hs : a.processedSample frame slice = some s)
    (hmax : a.queue = [] ∨ a.oldMaxValue = windowMax a.queue)
    (hcall : a.dataHandler frame slice ip = some (a', calls)) :
    a'.queue = a.queue ++ [s] ∧ calls = [] ∧ a'.stopProcessing = false ∧
      a'.oldMaxValue = windowMax (a.queue ++ [s]) := by
  obtain ⟨hstop, hfi, hget⟩ := processedSample_eq_some.mp hs
  rw [dataHandler_fill _ _ _ _ _ hstop hfi hget hfill] at hcall
  simp only [Option.some.injEq, Prod.mk.injEq] at hcall
  obtain ⟨rfl, rfl⟩ := hcall
  refine ⟨rfl, rfl, hstop, ?_⟩
  rcases hmax with hq | hq
  · simp [hq, windowMax, scanMax, lt_irrefl]
  · cases hq2 : a.queue with
    | nil => simp [hq2, windowMax, scanMax, lt_irrefl]
    | cons qh qt =>
      rw [hq2] at hq
      rw [windowMax_append, hq]
      simp

/-- Witness for C4 at a concrete input: second sample arriving into a
half-filled window of size 2. -/
theorem c4_initial_fill_witness :
    (AutoThreshold.mk ⟨"analog", 0⟩ 2 [3] 3 1 false).queue.length
      < (AutoThreshold.mk ⟨"analog", 0⟩ 2 [3] 3 1 false).queueSize ∧
    (AutoThreshold.mk ⟨"analog", 0⟩ 2 [3] 3 1 false).processedSample [1] [⟨"analog", 0⟩]
      = some 1 ∧
    ((AutoThreshold.mk ⟨"analog", 0⟩ 2 [1] 1 1 false).queue = [] ∨
      (AutoThreshold.mk ⟨"analog", 0⟩ 2 [3] 3 1 false).oldMaxValue = windowMax [3]) ∧
    ((AutoThreshold.mk ⟨"analog", 0⟩ 2 [3, 1] 3 1 false).queue = [3] ++ [1] ∧
     ([] : List ServerCall) = [] ∧
     (AutoThreshold.mk ⟨"analog", 0⟩ 2 [3, 1] 3 1 false).stopProcessing = false ∧
     (AutoThreshold.mk ⟨"analog", 0⟩ 2 [3, 1] 3 1 false).oldMaxValue
       = windowMax ([3] ++ [1])) :=
  ⟨by decide, by simp [AutoThreshold.processedSample, frameIndexOf],
   Or.inr (by simp [windowMax, scanMax]),
   c4_initial_fill
     (AutoThreshold.mk ⟨"analog", 0⟩ 2 [3] 3 1 false)
     (AutoThreshold.mk ⟨"analog", 0⟩ 2 [3, 1] 3 1 false)
     [1] [⟨"analog", 0⟩] true 1 []
     (by decide)
     (by simp [AutoThreshold.processedSample, frameIndexOf])
     (Or.inr (by simp [windowMax, scanMax]))
     (by simp [AutoThreshold.dataHandler, frameIndexOf, windowMax, scanMax])⟩

/-- C2: the queue is a fixed-size sliding window.  Over any successful run
the length never exceeds the configured size; and once the queue holds
exactly the configured size, a call that processes no sample leaves the
object unchanged, while a call that processes sample `s` removes exactly
the oldest element, appends `s`, and leaves the length at the configured
size. -/
theorem c2_sliding_window :
    (∀ (a a' : AutoThreshold) (inputs : List HandlerInput) (calls : List ServerCall),
      a.queue.length ≤ a.queueSize →
      runHandler a inputs = some (a', calls) →
      a'.queueSize = a.queueSize ∧ a'.queue.length ≤ a.queueSize) ∧
    (∀ (a a' : AutoThreshold) (frame : List ℚ) (slice : List AcqNdtChannel)
       (ip : Bool) (calls : List ServerCall),
      a.queue.length = a.queueSize →
      a.dataHandler frame slice ip = some (a', calls) →
      (a.processedSample frame slice = none → a' = a) ∧
      (∀ s, a.processedSample frame slice = some s →
        a'.queue = a.queue.tail ++ [s] ∧ a'.queue.length = a.queueSize)) := by
  constructor
  · intro a a' inputs calls hle hrun
    obtain ⟨hs, hb, -⟩ := runHandler_invariant hrun
    exact ⟨hs, hb hle⟩
  · intro a a' frame slice ip calls hfull hcall
    constructor
    · intro hnone
      by_cases h1 : a.stopProcessing
      · rw [dataHandler_stopped _ _ _ _ h1] at hcall
        simp only [Option.some.injEq, Prod.mk.injEq] at hcall
        exact hcall.1.symm
      · have h1' : a.stopProcessing = false := by simpa using h1
        by_cases h2 : frameIndexOf a.channel slice = frame.length
        · rw [dataHandler_absent _ _ _ _ h1' h2] at hcall
          simp only [Option.some.injEq, Prod.mk.injEq] at hcall
          exact hcall.1.symm
        · cases hget : frame[frameIndexOf a.channel slice]? with
          | none =>
            rw [dataHandler_get_none _ _ _ _ h1' h2 hget] at hcall
            exact absurd hcall (by simp)
          | some s =>
            have hps : a.processedSample frame slice = some s :=
              processedSample_eq_some.mpr ⟨h1', h2, hget⟩
            rw [hps] at hnone
            exact absurd hnone (by simp)
    · intro s hs
      obtain ⟨hstop, hfi, hget⟩ := processedSample_eq_some.mp hs
      have hlen : ¬ a.queue.length < a.queueSize := by omega
      cases hq : a.queue with
      | nil =>
        rw [dataHandler_pop_empty _ _ _ _ _ hstop hfi hget hq hlen] at hcall
        exact absurd hcall (by simp)
      | cons qh qt =>
        rw [dataHandler_slide _ _ _ _ _ _ _ hstop hfi hget hq hlen] at hcall
        have hfull2 : qt.length + 1 = a.queueSize := by
          rw [hq] at hfull
          simpa using hfull
        split at hcall <;>
          simp only [Option.some.injEq, Prod.mk.injEq] at hcall <;>
          obtain ⟨rfl, rfl⟩ := hcall <;>
          exact ⟨by simp [hq],
                 by simp only [List.length_append, List.length_cons, List.length_nil]; omega⟩

/-- Witness for C2 at concrete inputs: a one-step run bounded by the
window size, and a slide step on a full window of size 1. -/
theorem c2_sliding_window_witness :
    ((AutoThreshold.init ⟨"analog", 0⟩ 1).queue.length
        ≤ (AutoThreshold.init ⟨"analog", 0⟩ 1).queueSize ∧
      runHandler (AutoThreshold.init ⟨"analog", 0⟩ 1) [HandlerInput.mk [2] [⟨"analog", 0⟩] true]
        = some (AutoThreshold.mk ⟨"analog", 0⟩ 1 [2] 2 1 false, []) ∧
      (AutoThreshold.mk ⟨"analog", 0⟩ 1 [2] 2 1 false).queueSize
          = (AutoThreshold.init ⟨"analog", 0⟩ 1).queueSize ∧
      (AutoThreshold.mk ⟨"analog", 0⟩ 1 [2] 2 1 false).queue.length
          ≤ (AutoThreshold.init ⟨"analog", 0⟩ 1).queueSize) ∧
    ((AutoThreshold.mk ⟨"analog", 0⟩ 1 [0] 0 1 false).queue.length
        = (AutoThreshold.mk ⟨"analog", 0⟩ 1 [0] 0 1 false).queueSize ∧
      (AutoThreshold.mk ⟨"analog", 0⟩ 1 [0] 0 1 false).processedSample [1] [⟨"analog", 0⟩]
        = some 1 ∧
      (AutoThreshold.mk ⟨"analog", 0⟩ 1 [1] 1 1 false).queue = [0].tail ++ [1] ∧
      (AutoThreshold.mk ⟨"analog", 0⟩ 1 [1] 1 1 false).queue.length
        = (AutoThreshold.mk ⟨"analog", 0⟩ 1 [0] 0 1 false).queueSize) := by
  have hrun : runHandler (AutoThreshold.init ⟨"analog", 0⟩ 1)
      [HandlerInput.mk [2] [⟨"analog", 0⟩] true]
      = some (AutoThreshold.mk ⟨"analog", 0⟩ 1 [2] 2 1 false, []) := by
    simp [runHandler, AutoThreshold.dataHandler, AutoThreshold.init,
          frameIndexOf, windowMax, scanMax]
  have hcall : (AutoThreshold.mk ⟨"analog", 0⟩ 1 [0] 0 1 false).dataHandler
      [1] [⟨"analog", 0⟩] true
      = some (AutoThreshold.mk ⟨"analog", 0⟩ 1 [1] 1 1 false, []) := by
    simp [AutoThreshold.dataHandler, frameIndexOf, windowMax, scanMax]
  have hps : (AutoThreshold.mk ⟨"analog", 0⟩ 1 [0] 0 1 false).processedSample
      [1] [⟨"analog", 0⟩] = some 1 := by
    simp [AutoThreshold.processedSample, frameIndexOf]
  refine ⟨⟨by decide, hrun, ?_, ?_⟩, ⟨by decide, hps, ?_, ?_⟩⟩
  · exact (c2_sliding_window.1 _ _ _ _ (by decide) hrun).1
  · exact (c2_sliding_window.1 _ _ _ _ (by decide) hrun).2
  · exact ((c2_sliding_window.2 _ _ _ _ _ _ (by decide) hcall).2 1 hps).1
  · exact ((c2_sliding_window.2 _ _ _ _ _ _ (by decide) hcall).2 1 hps).2

/-- C5: once the stop flag is set, every subsequent call returns
immediately with the object unchanged and no server call; and over any
successful run the handler issues `toggleAcquisition` at most once. -/
theorem c5_stop_latch_single_toggle :
    (∀ (a : AutoThreshold) (frame : List ℚ) (slice : List AcqNdtChannel) (ip : Bool),
      a.stopProcessing = true → a.dataHandler frame slice ip = some (a, [])) ∧
    (∀ (a a' : AutoThreshold) (inputs : List HandlerInput) (calls : List ServerCall),
      runHandler a inputs = some (a', calls) →
      calls.count ServerCall.toggleAcquisition ≤ 1) := by
  constructor
  · exact fun a frame slice ip h => dataHandler_stopped a frame slice ip h
  · intro a a' inputs calls hrun
    obtain ⟨-, -, hc⟩ := runHandler_invariant hrun
    have h2 : (if a.stopProcessing = true then 0 else 1) ≤ 1 := by split <;> omega
    omega

/-- Witness for C5: a stopped object ignores a call, and a run that halts
once issues exactly one toggle. -/
theorem c5_stop_latch_single_toggle_witness :
    ((AutoThreshold.mk ⟨"analog", 0⟩ 1 [0] 0 1 true).stopProcessing = true ∧
      (AutoThreshold.mk ⟨"analog", 0⟩ 1 [0] 0 1 true).dataHandler [9] [⟨"analog", 0⟩] true
        = some (AutoThreshold.mk ⟨"analog", 0⟩ 1 [0] 0 1 true, [])) ∧
    (runHandler (AutoThreshold.mk ⟨"analog", 0⟩ 1 [0] 0 1 false)
        [HandlerInput.mk [5] [⟨"analog", 0⟩] true, HandlerInput.mk [9] [⟨"analog", 0⟩] true]
        = some (AutoThreshold.mk ⟨"analog", 0⟩ 1 [5] 0 1 true, [ServerCall.toggleAcquisition]) ∧
      List.count ServerCall.toggleAcquisition [ServerCall.toggleAcquisition] ≤ 1) := by
  have hrun : runHandler (AutoThreshold.mk ⟨"analog", 0⟩ 1 [0] 0 1 false)
      [HandlerInput.mk [5] [⟨"analog", 0⟩] true, HandlerInput.mk [9] [⟨"analog", 0⟩] true]
      = some (AutoThreshold.mk ⟨"analog", 0⟩ 1 [5] 0 1 true, [ServerCall.toggleAcquisition]) := by
    simp [runHandler, AutoThreshold.dataHandler, frameIndexOf, windowMax, scanMax]
  refine ⟨⟨rfl, c5_stop_latch_single_toggle.1 _ [9] [⟨"analog", 0⟩] true rfl⟩, hrun, ?_⟩
  exact c5_stop_latch_single_toggle.2 _ _ _ _ hrun

/-- C10: for a window size of at least 1 and a queue within its bound,
the pop in `dataHandler` is reached only with a full (hence nonempty)
queue, and on frames matching the channel slice in length the handler is
total: the pop and the maximum scan never raise. -/
theorem c10_pop_safe_total
    (a : AutoThreshold) (frame : List ℚ) (slice : List AcqNdtChannel) (ip : Bool)
    (hsize : 1 ≤ a.queueSize)
    (hinv : a.queue.length ≤ a.queueSize)
    (hws : slice.length = frame.length) :
    (¬ a.queue.length < a.queueSize → a.queue.length = a.queueSize ∧ a.queue ≠ []) ∧
    ∃ r, a.dataHandler frame slice ip = some r := by
  have hpop : ¬ a.queue.length < a.queueSize → a.queue.length = a.queueSize ∧ a.queue ≠ [] := by
    intro hfull
    refine ⟨by omega, fun hnil => ?_⟩
    rw [hnil] at hfull
    simp at hfull
    omega
  refine ⟨hpop, ?_⟩
  by_cases h1 : a.stopProcessing
  · exact ⟨(a, []), dataHandler_stopped _ _ _ _ h1⟩
  · have h1' : a.stopProcessing = false := by simpa using h1
    by_cases h2 : frameIndexOf a.channel slice = frame.length
    · exact ⟨(a, []), dataHandler_absent _ _ _ _ h1' h2⟩
    · have hle := frameIndexOf_le a.channel slice
      cases hget : frame[frameIndexOf a.channel slice]? with
      | none =>
        have := List.getElem?_eq_none_iff.mp hget
        omega
      | some s =>
        by_cases h3 : a.queue.length < a.queueSize
        · exact ⟨_, dataHandler_fill _ _ _ _ _ h1' h2 hget h3⟩
        · obtain ⟨-, hne⟩ := hpop h3
          cases hq : a.queue with
          | nil => exact absurd hq hne
          | cons qh qt =>
            rw [dataHandler_slide _ _ _ _ _ _ _ h1' h2 hget hq h3]
            split
            · exact ⟨_, rfl⟩
            · exact ⟨_, rfl⟩

/-- Witness for C10 at a concrete input: a full window of size 1. -/
theorem c10_pop_safe_total_witness :
    (1 ≤ (AutoThreshold.mk ⟨"analog", 0⟩ 1 [0] 0 1 false).queueSize ∧
      (AutoThreshold.mk ⟨"analog", 0⟩ 1 [0] 0 1 false).queue.length
        ≤ (AutoThreshold.mk ⟨"analog", 0⟩ 1 [0] 0 1 false).queueSize ∧
      [AcqNdtChannel.mk "analog" 0].length = [(7 : ℚ)].length) ∧
    (¬ (AutoThreshold.mk ⟨"analog", 0⟩ 1 [0] 0 1 false).queue.length
        < (AutoThreshold.mk ⟨"analog", 0⟩ 1 [0] 0 1 false).queueSize →
      (AutoThreshold.mk ⟨"analog", 0⟩ 1 [0] 0 1 false).queue.length
        = (AutoThreshold.mk ⟨"analog", 0⟩ 1 [0] 0 1 false).queueSize ∧
      (AutoThreshold.mk ⟨"analog", 0⟩ 1 [0] 0 1 false).queue ≠ []) ∧
    ∃ r, (AutoThreshold.mk ⟨"analog", 0⟩ 1 [0] 0 1 false).dataHandler [7] [⟨"analog", 0⟩] true
      = some r :=
  ⟨⟨by decide, by decide, by decide⟩,
   c10_pop_safe_total
     (AutoThreshold.mk ⟨"analog", 0⟩ 1 [0] 0 1 false)
     [7] [⟨"analog", 0⟩] true
     (by decide) (by decide) (by decide)⟩

/-- Elements of the `multiconnect.py` per-channel setup block. -/
lemma multiconnectPerChannel_mem {b : Bool} {i : Nat} {e : Event}
    (h : e ∈ multiconnectPerChannel b i) :
    e = Event.registerCallback "OutputToScreen" ∨ e = Event.registerCallback "BinaryWriter" ∨
      e = Event.dataServerStart i := by
  unfold multiconnectPerChannel at h
  rcases List.mem_append.mp h with h | h
  · cases b
    · simp at h
      exact Or.inl h
    · simp at h
  · simp at h
    rcases h with h | h
    · exact Or.inr (Or.inl h)
    · exact Or.inr (Or.inr h)

/-- An event that is not a shutdown boundary is not a stop, close, sleep,
wait, or exit event. -/
lemma isShutdownBoundary_false_spec {e : Event} (h : e.isShutdownBoundary = false) :
    e.shutdownEffect = false ∧ (∀ n, e ≠ Event.sleepSeconds n) ∧
      e ≠ Event.waitForAcquisitionEnd ∧ e ≠ Event.exitCall := by
  cases e <;> simp_all [Event.isShutdownBoundary, Event.shutdownEffect]

/-- The setup phase of `multiconnect.py` contains no shutdown-boundary
event. -/
lemma multiconnectSetup_boundary_free (env : Env) :
    ∀ e ∈ multiconnectSetup env, e.isShutdownBoundary = false := by
  intro e he
  unfold multiconnectSetup at he
  simp only [List.mem_append] at he
  rcases he with (((((he | he) | he) | he) | he) | he) | he
  · split at he
    · simp at he
      rcases he with rfl | rfl <;> rfl
    · simp at he
  · simp at he
    rcases he with rfl | rfl <;> rfl
  · split at he
    · simp at he
      rcases he with rfl | rfl <;> rfl
    · simp at he
  · simp at he
    rw [he]
    rfl
  · split at he
    · simp at he
      rw [he]
      rfl
    · simp at he
  · simp only [List.mem_flatMap] at he
    obtain ⟨i, -, hper⟩ := he
    rcases multiconnectPerChannel_mem hper with rfl | rfl | rfl <;> rfl
  · simp at he
    rw [he]
    rfl

/-- The setup phase of `singleconnection.py` contains no shutdown-boundary
event. -/
lemma singleconnectionSetup_boundary_free (env : Env) :
    ∀ e ∈ singleconnectionSetup env, e.isShutdownBoundary = false := by
  intro e he
  unfold singleconnectionSetup at he
  simp only [List.mem_append] at he
  rcases he with ((he | he) | he) | he
  · split at he
    · simp at he
      rcases he with rfl | rfl <;> rfl
    · simp at he
  · simp at he
    rcases he with rfl | rfl <;> rfl
  · split at he
    · simp at he
      rcases he with rfl | rfl <;> rfl
    · simp at he
  · simp at he
    rcases he with rfl | rfl | rfl | rfl | rfl <;> rfl

/-- `simplesample.py` never calls `sys.exit` once a server was found. -/
lemma exit_not_mem_simplesampleBody (env : Env) :
    Event.exitCall ∉ simplesampleBody env := by
  intro hmem
  by_cases h1 : env.acqInProgress <;> by_cases h2 : env.acqStartedAfterToggle <;>
    simp [simplesampleBody, h1, h2] at hmem

/-- `autothreshold.py` never calls `sys.exit` once a server was found. -/
lemma exit_not_mem_autothresholdBody (env : Env) :
    Event.exitCall ∉ autothresholdBody env := by
  intro hmem
  by_cases h1 : env.acqInProgress <;> by_cases h2 : env.dataConnectionMethod = "single" <;>
    simp [autothresholdBody, h1, h2] at hmem

/-- `plotchan.py` never calls `sys.exit` once a server was found. -/
lemma exit_not_mem_plotchanBody (env : Env) :
    Event.exitCall ∉ plotchanBody env := by
  intro hmem
  by_cases h1 : env.acqInProgress <;> by_cases h2 : env.dataConnectionMethod = "single" <;>
    simp [plotchanBody, h1, h2] at hmem

/-- `multiconnect.py` never calls `sys.exit` once a server was found. -/
lemma exit_not_mem_multiconnectBody (env : Env) :
    Event.exitCall ∉ multiconnectBody env := by
  intro hmem
  unfold multiconnectBody at hmem
  simp only [List.mem_append] at hmem
  rcases hmem with ((hmem | hmem) | hmem) | hmem
  · exact absurd rfl
      (isShutdownBoundary_false_spec (multiconnectSetup_boundary_free env _ hmem)).2.2.2
  · simp at hmem
  · simp at hmem
  · simp at hmem

/-- `singleconnection.py` never calls `sys.exit` once a server was found. -/
lemma exit_not_mem_singleconnectionBody (env : Env) :
    Event.exitCall ∉ singleconnectionBody env := by
  intro hmem
  unfold singleconnectionBody at hmem
  simp only [List.mem_append] at hmem
  rcases hmem with hmem | hmem
  · exact absurd rfl
      (isShutdownBoundary_false_spec (singleconnectionSetup_boundary_free env _ hmem)).2.2.2
  · simp at hmem

/-- C6 (amended): on discovery failure every script prints the message and
exits with nothing after; when a server is found no script ever calls
`sys.exit`; the only other failure branch is `simplesample.py`, which ends
with an error print (but no exit) when the acquisition did not start. -/
theorem c6_failure_handling (env : Env) :
    (env.serverFound = false →
      simplesampleMain env = [Event.print "No AcqKnowledge servers found!", Event.exitCall] ∧
      autothresholdMain env = [Event.print "No AcqKnowledge servers found!", Event.exitCall] ∧
      multiconnectMain env = [Event.print "No AcqKnowledge servers found!", Event.exitCall] ∧
      singleconnectionMain env = [Event.print "No AcqKnowledge servers found!", Event.exitCall] ∧
      plotchanMain env = [Event.print "No AcqKnowledge servers found!", Event.exitCall]) ∧
    (env.serverFound = true →
      Event.exitCall ∉ simplesampleMain env ∧
      Event.exitCall ∉ autothresholdMain env ∧
      Event.exitCall ∉ multiconnectMain env ∧
      Event.exitCall ∉ singleconnectionMain env ∧
      Event.exitCall ∉ plotchanMain env) ∧
    (env.serverFound = true → env.acqStartedAfterToggle = false →
      (simplesampleMain env).getLast?
        = some (Event.print "ERROR:  the acquisition did not start!")) := by
  refine ⟨fun h => ?_, fun h => ?_, fun h hstart => ?_⟩
  · rw [simplesampleMain, autothresholdMain, multiconnectMain, singleconnectionMain,
        plotchanMain]
    simp [h, noServerTrace]
  · rw [simplesampleMain, autothresholdMain, multiconnectMain, singleconnectionMain,
        plotchanMain]
    simp only [h, if_true]
    exact ⟨exit_not_mem_simplesampleBody env, exit_not_mem_autothresholdBody env,
           exit_not_mem_multiconnectBody env, exit_not_mem_singleconnectionBody env,
           exit_not_mem_plotchanBody env⟩
  · have hshape : simplesampleMain env =
        ((if env.acqInProgress then
            [Event.toggleAcquisition, Event.print "Current data acquistion stopped",
             Event.print ""]
          else [])
         ++ [Event.print ("Loading template " ++ env.templateName), Event.print "",
             Event.loadTemplate env.templateName,
             Event.print "First channel name:", Event.print env.firstChannelLabel,
             Event.print "",
             Event.toggleAcquisition, Event.sleepSeconds 1])
        ++ [Event.print "ERROR:  the acquisition did not start!"] := by
      rw [simplesampleMain]
      simp [h, simplesampleBody, hstart]
    rw [hshape, List.getLast?_concat]

/-- Witness for C6 at two concrete environments: one with no server found,
one with a server found but an acquisition that failed to start. -/
theorem c6_failure_handling_witness :
    (simplesampleMain (Env.mk false false "single" "tpl" "lbl" false 0 false)
        = [Event.print "No AcqKnowledge servers found!", Event.exitCall] ∧
      plotchanMain (Env.mk false false "single" "tpl" "lbl" false 0 false)
        = [Event.print "No AcqKnowledge servers found!", Event.exitCall]) ∧
    Event.exitCall ∉ simplesampleMain (Env.mk true false "single" "tpl" "lbl" false 0 false) ∧
    (simplesampleMain (Env.mk true false "single" "tpl" "lbl" false 0 false)).getLast?
      = some (Event.print "ERROR:  the acquisition did not start!") :=
  ⟨⟨((c6_failure_handling (Env.mk false false "single" "tpl" "lbl" false 0 false)).1 rfl).1,
    ((c6_failure_handling (Env.mk false false "single" "tpl" "lbl" false 0 false)).1 rfl).2.2.2.2⟩,
   ((c6_failure_handling (Env.mk true false "single" "tpl" "lbl" false 0 false)).2.1 rfl).1,
   (c6_failure_handling (Env.mk true false "single" "tpl" "lbl" false 0 false)).2.2 rfl rfl⟩

/-- Counterexample to C6 as stated: with a server found and an acquisition
that fails to start, `simplesample.py` reaches a second failure branch,
printing an error message (and not exiting), so the print-and-exit on
discovery failure is not the only failure handling in the scripts. -/
theorem c6_counterexample :
    (Env.mk true false "single" "tpl" "lbl" false 0 false).serverFound = true ∧
    Event.print "ERROR:  the acquisition did not start!"
      ∈ simplesampleMain (Env.mk true false "single" "tpl" "lbl" false 0 false) ∧
    Event.exitCall ∉ simplesampleMain (Env.mk true false "single" "tpl" "lbl" false 0 false) := by
  refine ⟨rfl, ?_, ?_⟩
  · simp [simplesampleMain, simplesampleBody]
  · simp [simplesampleMain]
    exact exit_not_mem_simplesampleBody _

/-- C8: in `multiconnect.py` and `singleconnection.py`, after
`WaitForAcquisitionEnd` a single 15-second sleep is taken before any data
server is stopped, and every data server is stopped before any channel
recorder is closed; the preceding part of the run contains no stop, close,
grace-period sleep, or wait event. -/
theorem c8_shutdown_ordering (env : Env) (h : env.serverFound = true) :
    (multiconnectMain env = multiconnectSetup env
        ++ [Event.waitForAcquisitionEnd, Event.sleepSeconds 15]
        ++ (List.range env.channelCount).map Event.dataServerStop
        ++ (List.range env.channelCount).map Event.recorderClose ∧
      ∀ e ∈ multiconnectSetup env,
        e.shutdownEffect = false ∧ e ≠ Event.sleepSeconds 15 ∧
          e ≠ Event.waitForAcquisitionEnd) ∧
    (singleconnectionMain env = singleconnectionSetup env
        ++ [Event.waitForAcquisitionEnd, Event.sleepSeconds 15,
            Event.dataServerStop 0, Event.recorderClose 0] ∧
      ∀ e ∈ singleconnectionSetup env,
        e.shutdownEffect = false ∧ e ≠ Event.sleepSeconds 15 ∧
          e ≠ Event.waitForAcquisitionEnd) := by
  refine ⟨⟨?_, fun e he => ?_⟩, ⟨?_, fun e he => ?_⟩⟩
  · rw [multiconnectMain]
    simp [h, multiconnectBody]
  · obtain ⟨hs, hsl, hw, -⟩ :=
      isShutdownBoundary_false_spec (multiconnectSetup_boundary_free env e he)
    exact ⟨hs, hsl 15, hw⟩
  · rw [singleconnectionMain]
    simp [h, singleconnectionBody]
  · obtain ⟨hs, hsl, hw, -⟩ :=
      isShutdownBoundary_false_spec (singleconnectionSetup_boundary_free env e he)
    exact ⟨hs, hsl 15, hw⟩

/-- Witness for C8 at a concrete environment with two channels. -/
theorem c8_shutdown_ordering_witness :
    (Env.mk true false "multiple" "tpl" "lbl" true 2 false).serverFound = true ∧
    ((multiconnectMain (Env.mk true false "multiple" "tpl" "lbl" true 2 false)
        = multiconnectSetup (Env.mk true false "multiple" "tpl" "lbl" true 2 false)
          ++ [Event.waitForAcquisitionEnd, Event.sleepSeconds 15]
          ++ (List.range (Env.mk true false "multiple" "tpl" "lbl" true 2 false).channelCount).map
              Event.dataServerStop
          ++ (List.range (Env.mk true false "multiple" "tpl" "lbl" true 2 false).channelCount).map
              Event.recorderClose ∧
      ∀ e ∈ multiconnectSetup (Env.mk true false "multiple" "tpl" "lbl" true 2 false),
        e.shutdownEffect = false ∧ e ≠ Event.sleepSeconds 15 ∧
          e ≠ Event.waitForAcquisitionEnd) ∧
     (singleconnectionMain (Env.mk true false "multiple" "tpl" "lbl" true 2 false)
        = singleconnectionSetup (Env.mk true false "multiple" "tpl" "lbl" true 2 false)
          ++ [Event.waitForAcquisitionEnd, Event.sleepSeconds 15,
              Event.dataServerStop 0, Event.recorderClose 0] ∧
      ∀ e ∈ singleconnectionSetup (Env.mk true false "multiple" "tpl" "lbl" true 2 false),
        e.shutdownEffect = false ∧ e ≠ Event.sleepSeconds 15 ∧
          e ≠ Event.waitForAcquisitionEnd)) :=
  ⟨rfl, c8_shutdown_ordering (Env.mk true false "multiple" "tpl" "lbl" true 2 false) rfl⟩
